import Mathlib

/-!
Verification of the mosreg_tg schedule bot.

This file gives a shallow embedding of the schedule extraction and
classification pipeline of `mosreg_schedule_selenium.py` and of the cache,
cooldown, display-filter, digest and persistence logic of
`mosh_telegram_bot.py`, and proves the behavioural claims about them.

String handling mirrors Python semantics: `sLower` is `str.lower` restricted
to the ASCII and Cyrillic ranges that occur in the source, `sTrim` is
`str.strip`, `containsStr` is the `in` operator on strings, `splitOnChar`
is `str.split` with a one-character separator, and `afterFirst` is the
`[1]` component of `str.split(sep, 1)` (it is `none` exactly when Python
would raise an `IndexError` because the separator does not occur).
-/

/-- Python `str.lower` on one character, covering ASCII letters and the
Cyrillic letters used by the source (А..Я plus Ё). -/
def ruLower (c : Char) : Char :=
  let n := c.toNat
  if 65 ≤ n ∧ n ≤ 90 then Char.ofNat (n + 32)
  else if 0x410 ≤ n ∧ n ≤ 0x42F then Char.ofNat (n + 0x20)
  else if n = 0x401 then Char.ofNat 0x451
  else c

/-- Python `str.lower` on a string. -/
def sLower (s : String) : String := ⟨s.data.map ruLower⟩

/-- Python whitespace test used by `str.strip`. -/
def isPySpace (c : Char) : Bool :=
  c = ' ' || c = '\t' || c = '\n' || c = '\r' || c = Char.ofNat 11 || c = Char.ofNat 12

/-- Strip leading and trailing whitespace from a character list. -/
def trimChars (l : List Char) : List Char :=
  ((l.dropWhile isPySpace).reverse.dropWhile isPySpace).reverse

/-- Python `str.strip`. -/
def sTrim (s : String) : String := ⟨trimChars s.data⟩

/-- Occurrence of one character list inside another. -/
def infixChars (needle : List Char) : List Char → Bool
  | [] => needle.isEmpty
  | c :: rest => needle.isPrefixOf (c :: rest) || infixChars needle rest

/-- Python `needle in hay` on strings. -/
def containsStr (needle hay : String) : Bool :=
  infixChars needle.data hay.data

/-- Python `str.startswith`. -/
def startsWithStr (p s : String) : Bool :=
  p.data.isPrefixOf s.data

/-- Python `str.split(sep)` for a one-character separator. -/
def splitOnChar (sep : Char) : List Char → List (List Char)
  | [] => [[]]
  | c :: rest =>
    if c = sep then [] :: splitOnChar sep rest
    else
      match splitOnChar sep rest with
      | [] => [[c]]
      | g :: gs => (c :: g) :: gs

/-- Everything after the first occurrence of `sep` in `l`
(the `[1]` component of Python `str.split(sep, 1)`); `none` when `sep`
does not occur, which in Python raises an `IndexError`. -/
def afterFirst (sep : List Char) : List Char → Option (List Char)
  | [] => if sep.isEmpty then some [] else none
  | c :: rest =>
    if sep.isPrefixOf (c :: rest) then some (List.drop sep.length (c :: rest))
    else afterFirst sep rest

/-- Finite map update used to model Python dict assignment `m[k] = v`. -/
def updateMap {α : Type} (m : String → Option α) (k : String) (v : α) :
    String → Option α :=
  fun q => if q = k then some v else m q

namespace Scraper

/-- One lesson dictionary built by `MosregSchedule.get_schedule`; the
`"Не указано"` default marks an unspecified field. -/
structure Lesson where
  subject : String
  start_time : String
  end_time : String
  room : String
  teacher : String
  homework : String
deriving DecidableEq, Repr

/-- Default lesson info for a freshly seen subject. -/
def initLesson (subject : String) : Lesson :=
  { subject := subject
    start_time := "Не указано"
    end_time := "Не указано"
    room := "Не указано"
    teacher := "Не указано"
    homework := "Не указано" }

/-- Interface-noise vocabulary (`interface_elements` in the source). -/
def interface_elements : List String :=
  ["дневник", "библиотека", "портфолио", "справка", "учащийся",
   "расписание", "задания", "оценки", "создать",
   "учёба", "школа", "олимпиады", "версия", "написать нам"]

/-- Homework keyword vocabulary (`homework_indicators` in the source). -/
def homework_indicators : List String :=
  ["дз:", "домашнее задание:", "задание:", "выполнить:", "учить", "прочитать",
   "выучить", "сделать", "подготовить", "параграф", "упражнение", "ex.",
   "exercise", "activity", "student\x27s book", "workbook", "п.", "стр.",
   "с.", "записать", "решить"]

/-- Teacher keyword vocabulary (`teacher_indicators` in the source). -/
def teacher_indicators : List String :=
  ["преподаватель:", "учитель:", "внеурочная деятельность", "элективный курс"]

/-- Case-sensitive "no lessons" phrases checked first (`no_lessons_texts`). -/
def no_lessons_texts : List String :=
  ["Уроков и мероприятий нет", "Уроков и мероприятий на этот день не найдено"]

/-- Lower-case "no lessons" indicators checked when no structural selector
matched (`no_lessons_indicators`). -/
def no_lessons_indicators : List String :=
  ["уроков и мероприятий нет", "уроков нет", "нет уроков", "не найдено",
   "выходной"]

/-- Does a piece of text contain an interface-noise word
(Python `any(interface_word in text.lower() for ...)`)? -/
def isNoise (text : String) : Bool :=
  interface_elements.any (fun w => containsStr w (sLower text))

/-- One raw candidate DOM node: the optional dedicated title sub-element
(`./div[1]/h6`), the node's full text (`elem.text`), and the optional
dedicated homework sub-element (`./div[1]/div[2]/div/div[2]/p`). -/
structure RawNode where
  titleElem : Option String
  text : String
  homeworkElem : Option String
deriving DecidableEq, Repr

/-- Sequentially strip recognized lower-case label prefixes, as the
source does with `startswith(prefix)` / slicing / `strip()`. -/
def stripLabels (labels : List String) (s : String) : String :=
  labels.foldl
    (fun acc p =>
      if startsWithStr p (sLower acc) then sTrim ⟨acc.data.drop p.length⟩
      else acc)
    s

/-- Classify one line of a node's text, updating the lesson info; `none`
models the `IndexError` raised by `line.split("кабинет", 1)[1]` when the
separator is absent from the original (non-lowercased) line. -/
def classifyLine (subject : String) (info : Lesson) (line : String) :
    Option Lesson :=
  let line := sTrim line
  if line = "" ∨ line = subject then some info
  else if line.data.contains ':' ∧ line.length < 20 then
    if line.data.contains '-' then
      let parts := splitOnChar '-' line.data
      some { info with
              start_time := sTrim ⟨parts.headD []⟩
              end_time := sTrim ⟨parts.getD 1 []⟩ }
    else some { info with start_time := line }
  else if line.data.any Char.isDigit ∧ line.length < 15 ∧
      ¬ line.data.contains ':' then
    if containsStr "кабинет" (sLower line) then
      match afterFirst "кабинет".data line.data with
      | some rest => some { info with room := sTrim ⟨rest⟩ }
      | none => none
    else some { info with room := line }
  else if line.length > 3 then
    let is_homework :=
      homework_indicators.any (fun h => containsStr (sLower h) (sLower line))
    let is_teacher :=
      teacher_indicators.any (fun t => containsStr (sLower t) (sLower line))
    if is_homework ∨ (line.length > 30 ∧ ¬ is_teacher) then
      some { info with
              homework :=
                stripLabels ["дз:", "домашнее задание:", "задание:"] line }
    else if is_teacher ∨ (line.length < 30 ∧ ¬ is_homework) then
      some { info with
              teacher := stripLabels ["учитель:", "преподаватель:"] line }
    else some info
  else some info

/-- Run `classifyLine` over all lines, aborting the whole node when a line
raises (mirrors the per-element `try`/`except` in the source). -/
def classifyLines (subject : String) : Lesson → List String → Option Lesson
  | info, [] => some info
  | info, l :: ls =>
    match classifyLine subject info l with
    | none => none
    | some info' => classifyLines subject info' ls

/-- Full processing of one candidate node, lines 277-403 of
`mosreg_schedule_selenium.py`: subject lookup, interface-noise skip, the
line-classification loop, the dedicated homework override, and the two
misclassification repairs. `none` means the node contributed no lesson
(skipped, or dropped by an exception). -/
def processElem (node : RawNode) : Option Lesson :=
  let subject :=
    match node.titleElem with
    | some t => sTrim t
    | none => (⟨(splitOnChar '\n' (sTrim node.text).data).headD []⟩ : String)
  if isNoise subject then none
  else
    let lines := (splitOnChar '\n' (sTrim node.text).data).map
      (fun l => (⟨l⟩ : String))
    match classifyLines subject (initLesson subject) lines with
    | none => none
    | some info =>
      let info :=
        match node.homeworkElem with
        | some t => if sTrim t ≠ "" then { info with homework := sTrim t } else info
        | none => info
      let info :=
        if info.teacher.length > 50 ∧ info.homework = "Не указано" then
          { info with homework := info.teacher, teacher := "Не указано" }
        else info
      let info :=
        if isNoise info.teacher ∧
            ¬ teacher_indicators.any
              (fun t => containsStr t (sLower info.teacher)) then
          { info with teacher := "Не указано" }
        else info
      let info :=
        if isNoise info.room then { info with room := "Не указано" } else info
      some info

/-- First non-empty strategy result, modelling the ordered XPath and CSS
selector fallbacks, each used only when all earlier ones matched nothing. -/
def firstNonEmpty : List (List RawNode) → List RawNode
  | [] => []
  | l :: ls => if l.isEmpty then firstNonEmpty ls else l

/-- Deduplication loop of lines 410-422: drop interface noise and keep the
first occurrence of each subject, preserving order (`subjects_seen` set). -/
def dedupGo (seen : List String) : List Lesson → List Lesson
  | [] => []
  | l :: ls =>
    if isNoise l.subject then dedupGo seen ls
    else if l.subject ∈ seen then dedupGo seen ls
    else l :: dedupGo (l.subject :: seen) ls

/-- Deduplicate collected lessons (`unique_lessons` in the source). -/
def dedupLessons (lessons : List Lesson) : List Lesson := dedupGo [] lessons

/-- A successfully fetched schedule page: the visible body text and the
candidate-node lists produced by each selector strategy, in the order the
source tries them. -/
structure SchedulePage where
  bodyText : String
  strategyResults : List (List RawNode)
deriving DecidableEq, Repr

/-- Body of `MosregSchedule.get_schedule` after a successful navigation:
the "no lessons" phrase short-circuit, the selector fallback chain, the
indicator check when nothing matched, per-node classification, and
deduplication. An empty list is the "no lessons" result. -/
def get_schedule (page : SchedulePage) : List Lesson :=
  if no_lessons_texts.any (fun p => containsStr p page.bodyText) then []
  else
    let lesson_elements := firstNonEmpty page.strategyResults
    if lesson_elements.isEmpty ∧
        no_lessons_indicators.any
          (fun p => containsStr p (sLower page.bodyText)) then []
    else
      let lessons := lesson_elements.filterMap processElem
      if lessons.isEmpty then [] else dedupLessons lessons

/-- Outcome of fetching the schedule page: either the page was retrieved,
or navigation threw (the outer `except`, which returns `None`). -/
inductive FetchOutcome where
  | page (p : SchedulePage)
  | navError
deriving DecidableEq, Repr

/-- Complete return value of `MosregSchedule.get_schedule`: `none` is the
Python `None` (extraction failed), `some lessons` is a lesson list, with
`some []` meaning a confirmed empty day. -/
def get_schedule_outcome : FetchOutcome → Option (List Lesson)
  | .page p => some (get_schedule p)
  | .navError => none

/-- The distinguished failure value of the extractor (Python `None`). -/
def ExtractionFailed : Option (List Lesson) := none

/-- The confirmed-empty result of the extractor (Python `[]`). -/
def NoLessons : Option (List Lesson) := some []

end Scraper

namespace Bot

open Scraper (Lesson)

/-- Cache time-to-live in seconds (`CACHE_TTL = 172800`, 48 hours). -/
def CACHE_TTL : Int := 172800

/-- Manual-refresh cooldown in seconds (`REFRESH_COOLDOWN = 300`). -/
def REFRESH_COOLDOWN : Int := 300

/-- One `schedule_cache` entry: the cached lesson list (`'data'`) and the
fetch time (`'timestamp'`). Only non-`None` extraction results are stored. -/
structure CacheEntry where
  data : List Lesson
  timestamp : Int
deriving DecidableEq, Repr

/-- One `group_subscriptions` entry: the configured send time (`'time'`)
and the date of the last successful digest (`'last_sent_date'`). -/
structure Sub where
  time : String
  last_sent_date : Option String
deriving DecidableEq, Repr

/-- Per-user homework-done flags (`hw_status_data`), keyed by user id,
date and subject key. -/
def HwMap : Type := String → String → String → Option Bool

/-- The four durable pickle snapshots: `schedule_cache.pkl`,
`group_settings.pkl`, `last_update_times.pkl` and `hw_status.pkl`.
There is no file for the manual-refresh cooldown map. -/
structure Disk where
  cacheFile : String → Option CacheEntry
  groupFile : String → Option Sub
  updateFile : String → Option Int
  hwFile : HwMap

/-- In-memory process state: the five global dictionaries of
`mosh_telegram_bot.py` plus the durable snapshots they are written to.
`refreshMem` is `last_refresh_times`, keyed by `f"{user_id}_{date}"`. -/
structure BotState where
  cacheMem : String → Option CacheEntry
  subsMem : String → Option Sub
  updMem : String → Option Int
  hwMem : HwMap
  refreshMem : String → Option Int
  disk : Disk

/-- `save_last_update_times`: rewrite `last_update_times.pkl` from memory. -/
def save_last_update_times (s : BotState) : BotState :=
  { s with disk := { s.disk with updateFile := s.updMem } }

/-- The `pickle.dump(schedule_cache, ...)` call: rewrite
`schedule_cache.pkl` from memory. -/
def save_schedule_cache (s : BotState) : BotState :=
  { s with disk := { s.disk with cacheFile := s.cacheMem } }

/-- `save_group_settings`: rewrite `group_settings.pkl` from memory. -/
def save_group_settings (s : BotState) : BotState :=
  { s with disk := { s.disk with groupFile := s.subsMem } }

/-- `save_hw_status`: rewrite `hw_status.pkl` from memory. -/
def save_hw_status (s : BotState) : BotState :=
  { s with disk := { s.disk with hwFile := s.hwMem } }

/-- Startup loading in `main`: the four snapshot files are read into
memory (`load_cache`, `load_group_settings`, `load_last_update_times`,
`load_hw_status`); `last_refresh_times` starts as the empty dict. -/
def loadState (d : Disk) : BotState :=
  { cacheMem := d.cacheFile
    subsMem := d.groupFile
    updMem := d.updateFile
    hwMem := d.hwFile
    refreshMem := fun _ => none
    disk := d }

/-- Outcome of one attempt of the refresh path of `get_schedule`:
the scheduler instance could not be created, the 20-second
`asyncio.wait_for` timed out, the executor await raised, or the worker
completed returning `lessons` (`none` when extraction raised or returned
`None`; the worker catches its own exceptions and converts them to
`None`). -/
inductive RefreshOutcome where
  | noScheduler
  | timeout
  | execError
  | completed (lessons : Option (List Lesson))
deriving DecidableEq, Repr

/-- Result of a `get_schedule` call: the returned value, the state after
the call, and whether the blocking extractor was invoked. -/
structure GetResult where
  result : Option (List Lesson)
  state : BotState
  extractorCalled : Bool

/-- The cache-freshness test of line 116:
`date in schedule_cache and current_time - timestamp < CACHE_TTL`. -/
def cacheFresh (s : BotState) (now : Int) (date : String) : Bool :=
  match s.cacheMem date with
  | some e => decide (now - e.timestamp < CACHE_TTL)
  | none => false

/-- The stale-cache fallback value:
`schedule_cache[date]['data']` if the date is cached, else `None`. -/
def staleData (s : BotState) (date : String) : Option (List Lesson) :=
  (s.cacheMem date).map CacheEntry.data

/-- The async `get_schedule(date, force_refresh)` of
`mosh_telegram_bot.py` (lines 103-201) as a state transition. A fresh,
non-forced cache hit returns the entry without touching the extractor; on
scheduler-creation failure or timeout the stale entry (if any) is
returned; when the worker completes with `None` (extraction raised or
failed) the `None` is returned unchanged and nothing is cached; a
non-`None` result is cached with the current timestamp, the update-time
record is written, and both snapshots are persisted. -/
def get_schedule (s : BotState) (now : Int) (date : String)
    (force_refresh : Bool) (o : RefreshOutcome) : GetResult :=
  if !force_refresh && cacheFresh s now date then
    { result := staleData s date, state := s, extractorCalled := false }
  else
    match o with
    | .noScheduler =>
      { result := staleData s date, state := s, extractorCalled := false }
    | .timeout =>
      { result := staleData s date, state := s, extractorCalled := true }
    | .execError =>
      { result := staleData s date, state := s, extractorCalled := true }
    | .completed none =>
      { result := none, state := s, extractorCalled := true }
    | .completed (some lessons) =>
      let s1 := { s with
                   cacheMem := updateMap s.cacheMem date ⟨lessons, now⟩
                   updMem := updateMap s.updMem date now }
      let s2 := save_last_update_times s1
      let s3 := save_schedule_cache s2
      { result := some lessons, state := s3, extractorCalled := true }

/-- The display-filter test of `format_schedule` (lines 266-270): ignore
a lesson whose subject starts with "группа" unless it contains "_ров"
(both checks on the lowercased subject). -/
def should_ignore (subject : String) : Bool :=
  if startsWithStr "группа" (sLower subject) then
    if ¬ containsStr "_ров" (sLower subject) then true else false
  else false

/-- The lesson filtering of `format_schedule`: keep exactly the lessons
the ignore rule does not exclude. -/
def filterDisplay (lessons : List Lesson) : List Lesson :=
  lessons.filter (fun l => ! should_ignore l.subject)

/-- The pair returned by `format_schedule`, reduced to its second
component (the lesson list used for buttons): `none` when the input was
`None`/empty or when filtering removed everything. -/
def format_schedule_filtered (lessons : Option (List Lesson)) :
    Option (List Lesson) :=
  match lessons with
  | none => none
  | some ls =>
    if ls.isEmpty then none
    else
      let f := filterDisplay ls
      if f.isEmpty then none else some f

/-- The `f"{user_id}_{date_str}"` cooldown key. -/
def refreshKey (userId : Nat) (date : String) : String :=
  toString userId ++ "_" ++ date

/-- Decision taken by the refresh branch of `calendar_callback`. -/
inductive RefreshDecision where
  | accepted
  | rejected (remaining : Int)
deriving DecidableEq, Repr

/-- The manual-refresh branch of `calendar_callback` (lines 493-528): if
the cooldown elapsed since `last_refresh_times.get(key, 0)`, accept and
record the new refresh and update times in memory; otherwise reject with
`int(REFRESH_COOLDOWN - (current_time - last_refresh_time))` seconds
remaining. No snapshot is written in either branch. -/
def manual_refresh (s : BotState) (now : Int) (userId : Nat)
    (date : String) : RefreshDecision × BotState :=
  let key := refreshKey userId date
  let last : Int := (s.refreshMem key).getD 0
  if REFRESH_COOLDOWN ≤ now - last then
    (.accepted,
     { s with
        refreshMem := updateMap s.refreshMem key now
        updMem := updateMap s.updMem date now })
  else
    (.rejected (REFRESH_COOLDOWN - (now - last)), s)

/-- Environment of one `send_schedule_to_group` call: what the schedule
fetch does (`.error` models an exception escaping `get_schedule`) and
what `bot.send_message` does (`.error` models a raised send). -/
structure DigestEnv where
  fetch : Except Unit (Option (List Lesson))
  send : Except Unit Unit

/-- `send_schedule_to_group` (lines 962-995) restricted to its effect on
the subscription map: fetch tomorrow's schedule; when it is not `None`,
format and send it; only when the send returns without raising is
`last_sent_date` set to today and the settings snapshot written. Every
exception is caught and leaves the map unchanged. -/
def send_schedule_to_group (subs : String → Option Sub) (chat : String)
    (today : String) (env : DigestEnv) : String → Option Sub :=
  match env.fetch with
  | .error _ => subs
  | .ok none => subs
  | .ok (some _) =>
    match env.send with
    | .error _ => subs
    | .ok _ =>
      match subs chat with
      | none => subs
      | some sub => updateMap subs chat { sub with last_sent_date := some today }

end Bot

/-! Concrete instances used by the claim witnesses and counterexamples. -/

/-- The candidate node of the end-to-end classifier scenario, with the
room line capitalized as on the live page. -/
def algebraNode : Scraper.RawNode :=
  { titleElem := none
    text := "Алгебра\n08:30-09:15\nКабинет 204\nУчить параграф 5"
    homeworkElem := none }

/-- The same node with the room label in lower case, the only spelling
the room-label stripping code handles. -/
def algebraNodeLower : Scraper.RawNode :=
  { titleElem := none
    text := "Алгебра\n08:30-09:15\nкабинет 204\nУчить параграф 5"
    homeworkElem := none }

/-- A fetched page with no "no lessons" phrase on which every selector
strategy returned zero nodes. -/
def ambiguousPage : Scraper.SchedulePage :=
  { bodyText := "shell of the diary application", strategyResults := [[], []] }

/-- Empty durable snapshots. -/
def emptyDisk : Bot.Disk :=
  { cacheFile := fun _ => none
    groupFile := fun _ => none
    updateFile := fun _ => none
    hwFile := fun _ _ _ => none }

/-- Bot state with empty dictionaries and empty snapshots. -/
def emptyState : Bot.BotState :=
  { cacheMem := fun _ => none
    subsMem := fun _ => none
    updMem := fun _ => none
    hwMem := fun _ _ _ => none
    refreshMem := fun _ => none
    disk := emptyDisk }

/-- Bot state holding one fresh cache entry for 02-02-2025. -/
def freshCacheState : Bot.BotState :=
  { emptyState with
      cacheMem := fun k => if k = "02-02-2025" then some ⟨[], 100⟩ else none }

/-- Bot state holding one stale cache entry for 05-03-2025. -/
def staleCacheState : Bot.BotState :=
  { emptyState with
      cacheMem := fun k =>
        if k = "05-03-2025" then some ⟨[Scraper.initLesson "Физика"], 0⟩
        else none }

/-- Two classifier outputs sharing the subject "Физика" but differing in
every other field. -/
def duplicatePair : List Scraper.Lesson :=
  [{ subject := "Физика", start_time := "09:00", end_time := "09:45",
     room := "101", teacher := "Иванов", homework := "задача 1" },
   { subject := "Физика", start_time := "10:00", end_time := "10:45",
     room := "202", teacher := "Петров", homework := "задача 2" }]

/-- Digest environment in which the fetch succeeds but the send raises. -/
def failingSendEnv : Bot.DigestEnv :=
  { fetch := .ok (some [Scraper.initLesson "Физика"]), send := .error () }

/-! Helper lemmas. -/

/-- If every strategy returned zero nodes, the fallback chain yields none. -/
theorem firstNonEmpty_eq_nil (ls : List (List Scraper.RawNode))
    (h : ∀ l ∈ ls, l = []) : Scraper.firstNonEmpty ls = [] := by
  induction ls with
  | nil => rfl
  | cons x xs ih =>
    have hx : x = [] := h x (List.mem_cons_self x xs)
    simp only [Scraper.firstNonEmpty, hx, List.isEmpty_nil, if_true]
    exact ih fun l hl => h l (List.mem_cons_of_mem x hl)

/-- Deduplication only ever removes elements, preserving relative order. -/
theorem dedupGo_sublist (l : List Scraper.Lesson) :
    ∀ seen, (Scraper.dedupGo seen l).Sublist l := by
  induction l with
  | nil => intro seen; simp [Scraper.dedupGo]
  | cons x ls ih =>
    intro seen
    unfold Scraper.dedupGo
    by_cases h1 : Scraper.isNoise x.subject
    · simpa [h1] using (ih seen).cons x
    · by_cases h2 : x.subject ∈ seen
      · simpa [h1, h2] using (ih seen).cons x
      · simpa [h1, h2] using (ih (x.subject :: seen)).cons₂ x

/-- A subject already recorded as seen never reappears in the output. -/
theorem dedupGo_filter_of_seen (s : String) (l : List Scraper.Lesson) :
    ∀ seen, s ∈ seen →
      (Scraper.dedupGo seen l).filter (fun x => x.subject == s) = [] := by
  induction l with
  | nil => intro seen _; simp [Scraper.dedupGo]
  | cons x ls ih =>
    intro seen hs
    unfold Scraper.dedupGo
    by_cases h1 : Scraper.isNoise x.subject
    · simpa [h1] using ih seen hs
    · by_cases h2 : x.subject ∈ seen
      · simpa [h1, h2] using ih seen hs
      · have hne : (x.subject == s) = false := by
          apply beq_eq_false_iff_ne.mpr
          intro hEq
          exact h2 (hEq ▸ hs)
        simp only [h1, h2, if_false, if_neg]
        simpa [List.filter_cons, hne] using
          ih (x.subject :: seen) (List.mem_cons_of_mem _ hs)

/-- For a noise-free subject not yet seen, deduplication keeps exactly the
first record carrying it. -/
theorem dedupGo_filter_take (s : String) (l : List Scraper.Lesson)
    (hn : ∀ x ∈ l, Scraper.isNoise x.subject = false) :
    ∀ seen, s ∉ seen →
      (Scraper.dedupGo seen l).filter (fun x => x.subject == s)
        = (l.filter (fun x => x.subject == s)).take 1 := by
  induction l with
  | nil => intro seen _; simp [Scraper.dedupGo]
  | cons x ls ih =>
    intro seen hseen
    have hnx : Scraper.isNoise x.subject = false := hn x (List.mem_cons_self x ls)
    have hnl : ∀ y ∈ ls, Scraper.isNoise y.subject = false :=
      fun y hy => hn y (List.mem_cons_of_mem x hy)
    unfold Scraper.dedupGo
    by_cases h2 : x.subject ∈ seen
    · have hne : (x.subject == s) = false := by
        apply beq_eq_false_iff_ne.mpr
        intro hEq
        exact hseen (hEq ▸ h2)
      simpa [hnx, h2, List.filter_cons, hne] using ih hnl seen hseen
    · by_cases heq : x.subject = s
      · have hb : (x.subject == s) = true := beq_iff_eq.mpr heq
        simp only [hnx, Bool.false_eq_true, if_false, h2, if_neg,
          List.filter_cons, hb, if_true]
        rw [dedupGo_filter_of_seen s ls (x.subject :: seen)
          (by rw [heq]; exact heq ▸ List.mem_cons_self x.subject seen)]
        simp
      · have hb : (x.subject == s) = false := beq_eq_false_iff_ne.mpr heq
        have hseen2 : s ∉ x.subject :: seen := by
          intro hmem
          rcases List.mem_cons.mp hmem with h | h
          · exact heq h.symm
          · exact hseen h
        simpa [hnx, h2, List.filter_cons, hb] using
          ih hnl (x.subject :: seen) hseen2

/-- A non-forced call finding a fresh cache entry returns it unchanged
without running the refresh path. -/
theorem get_schedule_fresh_hit (s : Bot.BotState) (now : Int) (date : String)
    (e : Bot.CacheEntry) (o : Bot.RefreshOutcome)
    (hmem : s.cacheMem date = some e)
    (hfresh : now - e.timestamp < Bot.CACHE_TTL) :
    Bot.get_schedule s now date false o =
      { result := some e.data, state := s, extractorCalled := false } := by
  have hc : Bot.cacheFresh s now date = true := by
    unfold Bot.cacheFresh
    rw [hmem]
    exact decide_eq_true hfresh
  unfold Bot.get_schedule
  simp [hc, Bot.staleData, hmem]

/-! Claims. -/

/-- Claim C1, counterexample: on a page whose text contains no "no
lessons" phrase and where every selector strategy returns zero nodes,
`get_schedule` returns the empty list — the `NoLessons` value — and not
the distinguished `ExtractionFailed` value, contrary to the claim. -/
theorem claim1_counterexample :
    (Scraper.no_lessons_texts.all
      (fun p => ! containsStr p ambiguousPage.bodyText)) = true ∧
    (ambiguousPage.strategyResults.all List.isEmpty) = true ∧
    Scraper.get_schedule_outcome (.page ambiguousPage) = Scraper.NoLessons ∧
    Scraper.NoLessons ≠ Scraper.ExtractionFailed := by decide

/-- Claim C1 as amended: for every date whose fetched page text contains
no "no lessons" phrase and for which every structural selector strategy
returns zero candidate nodes, the schedule extraction reports the
confirmed-empty `NoLessons` value (the empty list), never the
distinguished `ExtractionFailed` failure value. -/
theorem claim1_ambiguous_extraction_reports_no_lessons
    (page : Scraper.SchedulePage)
    (h1 : ∀ p ∈ Scraper.no_lessons_texts, containsStr p page.bodyText = false)
    (h2 : ∀ l ∈ page.strategyResults, l = []) :
    Scraper.get_schedule_outcome (.page page) = Scraper.NoLessons := by
  have hany : (Scraper.no_lessons_texts.any
      (fun p => containsStr p page.bodyText)) = false := by
    rw [List.any_eq_false]
    intro p hp
    simp [h1 p hp]
  have hfe : Scraper.firstNonEmpty page.strategyResults = [] :=
    firstNonEmpty_eq_nil _ h2
  rw [show Scraper.get_schedule_outcome (.page page)
      = some (Scraper.get_schedule page) from rfl]
  unfold Scraper.get_schedule
  rw [hany, hfe]
  by_cases hind : (Scraper.no_lessons_indicators.any
      (fun p => containsStr p (sLower page.bodyText))) = true
  · simp [hind, Scraper.NoLessons]
  · simp [Bool.eq_false_iff.mpr hind, Scraper.NoLessons]

/-- Claim C1, witness for the amended theorem at a concrete page. -/
theorem claim1_witness :
    Scraper.get_schedule_outcome (.page ambiguousPage) = Scraper.NoLessons :=
  claim1_ambiguous_extraction_reports_no_lessons ambiguousPage
    (by decide) (by decide)

/-- Claim C2: the classifier drops the whole node instead of producing
the expected record. On the raw text `"Алгебра\n08:30-09:15\nКабинет
204\nУчить параграф 5"` the room branch tests the lowercased line for
"кабинет" but slices `line.split("кабинет", 1)[1]` on the original line,
where the capitalized label does not occur, raising `IndexError`; the
per-element handler swallows it and the node yields no lesson at all, so
`get_schedule` returns the empty list. With the label already in lower
case the very same code produces exactly the record the claim expects,
showing the capitalized label is a slip, not intent. -/
theorem claim2_room_label_case_bug :
    Scraper.processElem algebraNode = none ∧
    Scraper.get_schedule ⟨"x", [[algebraNode]]⟩ = [] ∧
    Scraper.processElem algebraNodeLower =
      some { subject := "Алгебра", start_time := "08:30", end_time := "09:15",
             room := "204", teacher := "Не указано",
             homework := "Учить параграф 5" } := by decide

/-- Claim C3: for every date with a cache entry younger than `CACHE_TTL`,
a non-forced `get_schedule` call returns the stored result unchanged,
leaves the whole state untouched, and never invokes the extractor,
whatever the refresh path would have produced. -/
theorem claim3_fresh_cache_hit_skips_extractor (s : Bot.BotState)
    (now : Int) (date : String) (e : Bot.CacheEntry) (o : Bot.RefreshOutcome)
    (hmem : s.cacheMem date = some e)
    (hfresh : now - e.timestamp < Bot.CACHE_TTL) :
    Bot.get_schedule s now date false o =
      { result := some e.data, state := s, extractorCalled := false } :=
  get_schedule_fresh_hit s now date e o hmem hfresh

/-- Claim C3, witness: a concrete fresh hit. -/
theorem claim3_witness :
    freshCacheState.cacheMem "02-02-2025" = some ⟨[], 100⟩ ∧
    (200 : Int) - 100 < Bot.CACHE_TTL ∧
    Bot.get_schedule freshCacheState 200 "02-02-2025" false .timeout =
      { result := some [], state := freshCacheState, extractorCalled := false } :=
  ⟨by decide, by decide,
   claim3_fresh_cache_hit_skips_extractor freshCacheState 200 "02-02-2025"
     ⟨[], 100⟩ .timeout (by decide) (by decide)⟩

/-- Claim C4, counterexample: a stale cache entry for the date exists and
the worker completes with `None` because extraction raised, yet
`get_schedule` returns `None` instead of falling back to the cached
result, because the exception was already converted to `None` inside the
worker and the stale-fallback branches only guard the scheduler-creation,
timeout and executor-exception paths. -/
theorem claim4_counterexample :
    (staleCacheState.cacheMem "05-03-2025").isSome = true ∧
    Bot.staleData staleCacheState "05-03-2025"
      = some [Scraper.initLesson "Физика"] ∧
    Bot.cacheFresh staleCacheState 200000 "05-03-2025" = false ∧
    (Bot.get_schedule staleCacheState 200000 "05-03-2025" false
      (.completed none)).result = none := by decide

/-- Claim C4 as amended: when the refresh path fails because the extractor
instance cannot be created, the 20-second timeout elapses, or the executor
await raises, `get_schedule` falls back to the cached entry for the date
if one exists (even stale) and otherwise propagates the failure value; but
when extraction itself raises, the worker converts the exception to `None`
and `get_schedule` returns `None` even if a cached entry exists. In every
failing case the state — cache and snapshots included — is left untouched,
so only successfully fetched results are ever cached. -/
theorem claim4_failed_refresh_behavior (s : Bot.BotState) (now : Int)
    (date : String) (force : Bool) (o : Bot.RefreshOutcome)
    (hguard : (!force && Bot.cacheFresh s now date) = false)
    (hfail : ∀ ls, o ≠ .completed (some ls)) :
    (Bot.get_schedule s now date force o).state = s ∧
    (o = .completed none → (Bot.get_schedule s now date force o).result = none) ∧
    ((o = .noScheduler ∨ o = .timeout ∨ o = .execError) →
      (Bot.get_schedule s now date force o).result = Bot.staleData s date) := by
  cases o with
  | noScheduler => simp [Bot.get_schedule, hguard]
  | timeout => simp [Bot.get_schedule, hguard]
  | execError => simp [Bot.get_schedule, hguard]
  | completed lessons =>
    cases lessons with
    | none => simp [Bot.get_schedule, hguard]
    | some ls => exact absurd rfl (hfail ls)

/-- Claim C4, witness for the amended theorem: a timeout with an empty
cache propagates the failure value and writes nothing. -/
theorem claim4_witness :
    ((!false && Bot.cacheFresh emptyState 1000 "05-03-2025") = false) ∧
    (Bot.get_schedule emptyState 1000 "05-03-2025" false .timeout).state
      = emptyState ∧
    (Bot.get_schedule emptyState 1000 "05-03-2025" false .timeout).result
      = Bot.staleData emptyState "05-03-2025" :=
  ⟨by decide,
   (claim4_failed_refresh_behavior emptyState 1000 "05-03-2025" false .timeout
     (by decide) (fun _ h => by cases h)).1,
   (claim4_failed_refresh_behavior emptyState 1000 "05-03-2025" false .timeout
     (by decide) (fun _ h => by cases h)).2.2 (Or.inr (Or.inl rfl))⟩

/-- Claim C9: when extraction completes with an empty lesson list, the
empty list is stored in the cache with the current timestamp, the cache
snapshot on disk is rewritten to contain it, and every later non-forced
call for the same date within `CACHE_TTL` returns the empty list without
invoking the extractor, whatever its refresh path would have produced. -/
theorem claim9_empty_result_is_cached (s : Bot.BotState) (now : Int)
    (date : String) (force : Bool)
    (hguard : (!force && Bot.cacheFresh s now date) = false) :
    (Bot.get_schedule s now date force (.completed (some []))).result
      = some [] ∧
    (Bot.get_schedule s now date force (.completed (some []))).state.cacheMem
      date = some ⟨[], now⟩ ∧
    (Bot.get_schedule s now date force
      (.completed (some []))).state.disk.cacheFile date = some ⟨[], now⟩ ∧
    (∀ (now2 : Int) (o2 : Bot.RefreshOutcome), now2 - now < Bot.CACHE_TTL →
      Bot.get_schedule
          (Bot.get_schedule s now date force (.completed (some []))).state
          now2 date false o2 =
        { result := some []
          state := (Bot.get_schedule s now date force
            (.completed (some []))).state
          extractorCalled := false }) := by
  have hstep : Bot.get_schedule s now date force (.completed (some [])) =
      { result := some []
        state := Bot.save_schedule_cache (Bot.save_last_update_times
          { s with cacheMem := updateMap s.cacheMem date ⟨[], now⟩
                   updMem := updateMap s.updMem date now })
        extractorCalled := true } := by
    unfold Bot.get_schedule
    simp [hguard]
  refine ⟨by rw [hstep], ?_, ?_, ?_⟩
  · rw [hstep]
    simp [Bot.save_schedule_cache, Bot.save_last_update_times, updateMap]
  · rw [hstep]
    simp [Bot.save_schedule_cache, Bot.save_last_update_times, updateMap]
  · intro now2 o2 h2
    have hmem : (Bot.get_schedule s now date force
        (.completed (some []))).state.cacheMem date = some ⟨[], now⟩ := by
      rw [hstep]
      simp [Bot.save_schedule_cache, Bot.save_last_update_times, updateMap]
    exact get_schedule_fresh_hit _ now2 date ⟨[], now⟩ o2 hmem h2

/-- Claim C9, witness: a concrete empty fetch followed by a cached read. -/
theorem claim9_witness :
    ((!false && Bot.cacheFresh emptyState 1000 "09-09-2025") = false) ∧
    ((1500 : Int) - 1000 < Bot.CACHE_TTL) ∧
    (Bot.get_schedule emptyState 1000 "09-09-2025" false
      (.completed (some []))).result = some [] ∧
    Bot.get_schedule
        (Bot.get_schedule emptyState 1000 "09-09-2025" false
          (.completed (some []))).state 1500 "09-09-2025" false .timeout =
      { result := some []
        state := (Bot.get_schedule emptyState 1000 "09-09-2025" false
          (.completed (some []))).state
        extractorCalled := false } :=
  ⟨by decide, by decide,
   (claim9_empty_result_is_cached emptyState 1000 "09-09-2025" false
     (by decide)).1,
   (claim9_empty_result_is_cached emptyState 1000 "09-09-2025" false
     (by decide)).2.2.2 1500 .timeout (by decide)⟩

/-- Claim C5: a manual refresh accepted at time `t` makes a second manual
refresh by the same user for the same date at `t + 60` (with the
300-second cooldown) be rejected — not executed or queued — reporting
exactly `300 - 60 = 240` seconds of remaining wait. -/
theorem claim5_cooldown_rejects_second_refresh (s : Bot.BotState) (t : Int)
    (userId : Nat) (date : String)
    (h : Bot.REFRESH_COOLDOWN ≤
      t - ((s.refreshMem (Bot.refreshKey userId date)).getD 0)) :
    (Bot.manual_refresh s t userId date).1 = .accepted ∧
    (Bot.manual_refresh (Bot.manual_refresh s t userId date).2 (t + 60)
      userId date).1 = .rejected 240 := by
  have hfirst : Bot.manual_refresh s t userId date =
      (.accepted,
       { s with
          refreshMem := updateMap s.refreshMem (Bot.refreshKey userId date) t
          updMem := updateMap s.updMem date t }) := by
    unfold Bot.manual_refresh
    rw [if_pos h]
  refine ⟨by rw [hfirst], ?_⟩
  rw [hfirst]
  unfold Bot.manual_refresh
  have hlast : (updateMap s.refreshMem (Bot.refreshKey userId date) t
      (Bot.refreshKey userId date)).getD 0 = t := by
    simp [updateMap]
  simp only [hlast]
  rw [if_neg (by unfold Bot.REFRESH_COOLDOWN; omega)]
  have : Bot.REFRESH_COOLDOWN - (t + 60 - t) = 240 := by
    unfold Bot.REFRESH_COOLDOWN; omega
  rw [this]

/-- Claim C5, witness: a first refresh with no prior history at `t = 1000`
is accepted and the retry at `t = 1060` is rejected with 240 s left. -/
theorem claim5_witness :
    (Bot.REFRESH_COOLDOWN ≤ (1000 : Int) -
      ((emptyState.refreshMem (Bot.refreshKey 7 "01-01-2025")).getD 0)) ∧
    (Bot.manual_refresh emptyState 1000 7 "01-01-2025").1 = .accepted ∧
    (Bot.manual_refresh (Bot.manual_refresh emptyState 1000 7 "01-01-2025").2
      (1000 + 60) 7 "01-01-2025").1 = .rejected 240 :=
  ⟨by decide,
   (claim5_cooldown_rejects_second_refresh emptyState 1000 7 "01-01-2025"
     (by decide)).1,
   (claim5_cooldown_rejects_second_refresh emptyState 1000 7 "01-01-2025"
     (by decide)).2⟩

/-- Claim C6: on any candidate list of noise-free classifier records that
contains at least two records with the same subject, deduplication keeps
exactly one record with that subject — the first occurrence, with all its
field values — and the output is a sublist of the input, so the relative
order of all retained records is preserved. -/
theorem claim6_dedup_keeps_first_occurrence (l : List Scraper.Lesson)
    (s : String)
    (hn : ∀ x ∈ l, Scraper.isNoise x.subject = false)
    (hdup : 2 ≤ (l.filter (fun x => x.subject == s)).length) :
    (Scraper.dedupLessons l).filter (fun x => x.subject == s)
      = (l.filter (fun x => x.subject == s)).take 1 ∧
    ((Scraper.dedupLessons l).filter (fun x => x.subject == s)).length = 1 ∧
    (Scraper.dedupLessons l).Sublist l := by
  have hfil : (Scraper.dedupLessons l).filter (fun x => x.subject == s)
      = (l.filter (fun x => x.subject == s)).take 1 :=
    dedupGo_filter_take s l hn [] (List.not_mem_nil s)
  refine ⟨hfil, ?_, dedupGo_sublist l []⟩
  rw [hfil, List.length_take]
  omega

/-- Claim C6, witness: two records with subject "Физика" collapse to the
first one. -/
theorem claim6_witness :
    duplicatePair.all (fun x => ! Scraper.isNoise x.subject) = true ∧
    2 ≤ (duplicatePair.filter (fun x => x.subject == "Физика")).length ∧
    (Scraper.dedupLessons duplicatePair).filter
        (fun x => x.subject == "Физика")
      = (duplicatePair.filter (fun x => x.subject == "Физика")).take 1 ∧
    ((Scraper.dedupLessons duplicatePair).filter
        (fun x => x.subject == "Физика")).length = 1 ∧
    (Scraper.dedupLessons duplicatePair).Sublist duplicatePair :=
  ⟨by decide, by decide,
   (claim6_dedup_keeps_first_occurrence duplicatePair "Физика"
     (by decide) (by decide)).1,
   (claim6_dedup_keeps_first_occurrence duplicatePair "Физика"
     (by decide) (by decide)).2.1,
   (claim6_dedup_keeps_first_occurrence duplicatePair "Физика"
     (by decide) (by decide)).2.2⟩

/-- Claim C7, counterexample: the override substring in the code is
"_ров", which `"Группа_ОВЗ"` does not contain, so a lesson with that
subject is excluded from display, contrary to the claim that it is
retained. -/
theorem claim7_counterexample :
    containsStr "_ров" (sLower "Группа_ОВЗ") = false ∧
    Bot.should_ignore "Группа_ОВЗ" = true ∧
    Bot.filterDisplay [Scraper.initLesson "Группа_ОВЗ"] = [] ∧
    Bot.format_schedule_filtered (some [Scraper.initLesson "Группа_ОВЗ"])
      = none := by decide

/-- Claim C7 as amended: the display filter's override substring is
"_РОВ" (checked on the lowercased subject): a lesson whose subject is
"Группа_РОВ" is retained in the output, while lessons whose subjects are
"Группа_ОВЗ" or "Группа 3" are both excluded from display. -/
theorem claim7_group_filter_override :
    Bot.filterDisplay [Scraper.initLesson "Группа_РОВ"]
      = [Scraper.initLesson "Группа_РОВ"] ∧
    Bot.format_schedule_filtered (some [Scraper.initLesson "Группа_РОВ"])
      = some [Scraper.initLesson "Группа_РОВ"] ∧
    Bot.filterDisplay [Scraper.initLesson "Группа_ОВЗ"] = [] ∧
    Bot.filterDisplay [Scraper.initLesson "Группа 3"] = [] := by decide

/-- Claim C8: the digest sender updates `last_sent_date` to today only
after `bot.send_message` returned without raising; when the schedule
fetch raises, or the send raises, the subscription map — and hence
`last_sent_date` — is left exactly as it was. -/
theorem claim8_last_sent_only_after_send (subs : String → Option Bot.Sub)
    (chat today : String) (env : Bot.DigestEnv) :
    ((env.fetch = .error () ∨ env.send = .error ()) →
      Bot.send_schedule_to_group subs chat today env = subs) ∧
    (∀ (ls : List Scraper.Lesson) (sub : Bot.Sub),
      env.fetch = .ok (some ls) → env.send = .ok () → subs chat = some sub →
      Bot.send_schedule_to_group subs chat today env chat
        = some { sub with last_sent_date := some today }) := by
  obtain ⟨fetch, send⟩ := env
  constructor
  · rintro (h | h)
    · simp only at h
      subst h
      rfl
    · simp only at h
      subst h
      cases fetch with
      | error e => rfl
      | ok v =>
        cases v with
        | none => rfl
        | some ls => rfl
  · intro ls sub hf hs hmem
    simp only at hf hs
    subst hf
    subst hs
    unfold Bot.send_schedule_to_group
    simp [hmem, updateMap]

/-- Claim C8, witness: a failing send leaves the subscriptions unchanged. -/
theorem claim8_witness :
    failingSendEnv.send = .error () ∧
    Bot.send_schedule_to_group (fun _ => none) "42" "01-01-2025"
      failingSendEnv = (fun _ => none) :=
  ⟨rfl,
   (claim8_last_sent_only_after_send (fun _ => none) "42" "01-01-2025"
     failingSendEnv).1 (Or.inr rfl)⟩

/-- Claim C10: the manual-refresh cooldown map lives only in memory — all
four snapshot writers produce a disk state independent of it, and the
refresh handler itself never touches the disk — while startup loading
rebuilds every other map from its snapshot but initializes the cooldown
map empty; consequently, after a restart every user's first manual
refresh for any date is permitted immediately (for any wall-clock time at
least the 300-second cooldown, as `time.time()` always is). -/
theorem claim10_cooldown_map_not_persisted :
    (∀ (s : Bot.BotState) (rt : String → Option Int),
      (Bot.save_schedule_cache { s with refreshMem := rt }).disk
        = (Bot.save_schedule_cache s).disk ∧
      (Bot.save_group_settings { s with refreshMem := rt }).disk
        = (Bot.save_group_settings s).disk ∧
      (Bot.save_last_update_times { s with refreshMem := rt }).disk
        = (Bot.save_last_update_times s).disk ∧
      (Bot.save_hw_status { s with refreshMem := rt }).disk
        = (Bot.save_hw_status s).disk) ∧
    (∀ (s : Bot.BotState) (now : Int) (userId : Nat) (date : String),
      ((Bot.manual_refresh s now userId date).2).disk = s.disk) ∧
    (∀ (d : Bot.Disk) (key : String),
      (Bot.loadState d).refreshMem key = none) ∧
    (∀ (d : Bot.Disk) (now : Int) (userId : Nat) (date : String),
      Bot.REFRESH_COOLDOWN ≤ now →
        (Bot.manual_refresh (Bot.loadState d) now userId date).1
          = .accepted) := by
  refine ⟨fun s rt => ⟨rfl, rfl, rfl, rfl⟩, ?_, fun d key => rfl, ?_⟩
  · intro s now userId date
    unfold Bot.manual_refresh
    by_cases h : Bot.REFRESH_COOLDOWN ≤
        now - ((s.refreshMem (Bot.refreshKey userId date)).getD 0)
    · rw [if_pos h]
    · rw [if_neg h]
  · intro d now userId date h
    unfold Bot.manual_refresh
    rw [if_pos (by simp [Bot.loadState]; omega)]

/-- Claim C10, witness: right after loading empty snapshots, a manual
refresh at epoch second 1000 is accepted. -/
theorem claim10_witness :
    (Bot.loadState emptyDisk).refreshMem (Bot.refreshKey 7 "01-01-2025")
      = none ∧
    Bot.REFRESH_COOLDOWN ≤ (1000 : Int) ∧
    (Bot.manual_refresh (Bot.loadState emptyDisk) 1000 7 "01-01-2025").1
      = .accepted :=
  ⟨(claim10_cooldown_map_not_persisted.2.2.1 emptyDisk
      (Bot.refreshKey 7 "01-01-2025")),
   by decide,
   (claim10_cooldown_map_not_persisted.2.2.2 emptyDisk 1000 7 "01-01-2025"
     (by decide))⟩
